import Mathlib

/-!
Hashpipe::Status: a shallow embedding of `ext/rb_hashpipe.c`.

The Ruby extension wraps four primitives of the Hashpipe status-buffer library
around one `struct hashpipe_status` kept behind each `Hashpipe::Status` object.
Every wrapper is embedded as a function from the record behind `self` and the
state of the outside world to a `Res`: how the call left (`out`), the record and
the world afterwards, and the ordered list of events the call produced.
-/

namespace Hashpipe

/-! ## Data model -/

/-- The record `struct hashpipe_status`. The wrapper reads and writes two of its
fields by name, `instance_id` and `buf` (a pointer, `0` being `NULL`); all other
fields are only ever zeroed or copied as a block and are kept in `rest`. -/
structure hashpipe_status where
  instance_id : Int
  buf : Nat
  rest : Nat
  deriving DecidableEq, Repr

/-- Ruby values that the wrapper handles or returns. `status` is the
`Hashpipe::Status` object the methods are called on. -/
inductive VALUE where
  | Qnil
  | Qtrue
  | Qfalse
  | Integer (n : Int)
  | status
  | obj (n : Nat)
  deriving DecidableEq, Repr

/-- Ruby exceptions. `rb_raise(rb_eRuntimeError, msg)` raises `RuntimeError msg`;
`RangeError` is what `NUM2INT` raises; `other` stands for exceptions raised by
caller code. -/
inductive Exn where
  | RuntimeError (msg : String)
  | RangeError
  | other (n : Nat)
  deriving DecidableEq, Repr

/-- How a call leaves: it returns a value, raises an exception, or leaves
through another non-local exit of the block (`break`, `throw`). -/
inductive Outcome where
  | ret (v : VALUE)
  | raise (e : Exn)
  | jump (tag : Nat)
  deriving DecidableEq, Repr

/-- The wrapper methods that log their entry. -/
inductive Method where
  | attach
  | detach
  | unlock
  | lock
  deriving DecidableEq, Repr

/-- Observable events. `call m` records that wrapper method `m` was entered;
the other four record an invocation of a library primitive together with the
status code it returned (and, for attach, the instance id it was given). -/
inductive Ev where
  | call (m : Method)
  | attach (id : Int) (rc : Int)
  | detach (rc : Int)
  | lock (rc : Int)
  | unlock (rc : Int)
  deriving DecidableEq, Repr

/-- Whether an event is an invocation of a library primitive. -/
def Ev.isPrim : Ev → Bool
  | .call _ => false
  | _ => true

/-- The result of running a piece of code against the handle. -/
structure Res (W : Type) where
  out : Outcome
  s : hashpipe_status
  w : W
  tr : List Ev

/-- The Hashpipe library (`hashpipe_status.h`, not part of the extension), over
an arbitrary state `W` of the outside world. Attach is given the instance id and
the record to fill, and yields a status code and the record as it left it; detach,
lock and unlock are given the record and yield a status code. -/
structure Lib (W : Type) where
  hashpipe_status_attach : Int → hashpipe_status → W → Int × hashpipe_status × W
  hashpipe_status_detach : hashpipe_status → W → Int × W
  hashpipe_status_lock : hashpipe_status → W → Int × W
  hashpipe_status_unlock : hashpipe_status → W → Int × W

/-- A block given to a method: Ruby code that receives the yielded value and may
do anything to the handle and the world before it returns, raises or jumps. -/
abbrev Block (W : Type) := VALUE → hashpipe_status → W → Res W

/-! ## The Ruby C API used by the extension -/

/-- Smallest C `int`. -/
def INT_MIN : Int := -2147483648

/-- Largest C `int`. -/
def INT_MAX : Int := 2147483647

/-- Ruby's `NUM2INT` on an Integer: the value itself when it fits a C `int`,
`RangeError` otherwise. -/
def NUM2INT (v : Int) : Except Exn Int :=
  if INT_MIN ≤ v ∧ v ≤ INT_MAX then .ok v else .error .RangeError

/-- Ruby's `INT2NUM`. -/
def INT2NUM (i : Int) : VALUE := .Integer i

/-- Ruby's `RTEST`: everything but `nil` and `false` is true. -/
def RTEST : VALUE → Bool
  | .Qnil => false
  | .Qfalse => false
  | _ => true

/-- What a function run by `rb_thread_blocking_region` leaves behind: its return
value, the record it was pointed at, the world, and the events. -/
structure BRes (W : Type) where
  v : VALUE
  data : hashpipe_status
  w : W
  tr : List Ev

/-- Ruby's `rb_thread_blocking_region(func, data1, ubf, data2)`: runs `func` on
`data1` outside the interpreter lock and relays what it returned. -/
def rb_thread_blocking_region {W : Type} (func : hashpipe_status → W → BRes W)
    (data1 : hashpipe_status) (w : W) : BRes W :=
  func data1 w

/-- Ruby's `rb_yield(val)`: runs the block of the current method on `val`. -/
def rb_yield {W : Type} (blk : Block W) (val : VALUE) (s : hashpipe_status) (w : W) : Res W :=
  blk val s w

/-- Ruby's `rb_ensure(b_proc, data1, e_proc, data2)`: runs `b_proc`, then always
`e_proc`. If `e_proc` returns, the call leaves the way `b_proc` left; if `e_proc`
itself raises or jumps, that exit is the one that propagates. -/
def rb_ensure {W : Type} (b_proc : VALUE → hashpipe_status → W → Res W) (data1 : VALUE)
    (e_proc : VALUE → hashpipe_status → W → Res W) (data2 : VALUE)
    (s : hashpipe_status) (w : W) : Res W :=
  let b := b_proc data1 s w
  let e := e_proc data2 b.s b.w
  match e.out with
  | .ret _ => { out := b.out, s := e.s, w := e.w, tr := b.tr ++ e.tr }
  | x => { out := x, s := e.s, w := e.w, tr := b.tr ++ e.tr }

/-! ## The extension -/

/-- `Data_Get_HPStruct_Ensure_Detached`: after fetching the record, raises
"already attached" if `buf` is set. -/
def Data_Get_HPStruct_Ensure_Detached (s : hashpipe_status) : Except Exn Unit :=
  if s.buf ≠ 0 then .error (.RuntimeError ("already attached")) else .ok ()

/-- `Data_Get_HPStruct_Ensure_Attached`: after fetching the record, raises
"not attached" if `buf` is not set. -/
def Data_Get_HPStruct_Ensure_Attached (s : hashpipe_status) : Except Exn Unit :=
  if s.buf = 0 then .error (.RuntimeError ("not attached")) else .ok ()

/-- The record after `memset(p, 0, sizeof(struct hashpipe_status))`. -/
def zeroed : hashpipe_status := { instance_id := 0, buf := 0, rest := 0 }

/-- `rb_hps_alloc`: a new object whose record is zeroed. -/
def rb_hps_alloc {W : Type} (w : W) : Res W :=
  { out := .ret .status, s := zeroed, w := w, tr := [] }

/-- `rb_hps_attach_blocking_func`: calls the attach primitive with the
`instance_id` stored in the record and the record itself; `Qtrue` on error. -/
def rb_hps_attach_blocking_func {W : Type} (lib : Lib W) (s : hashpipe_status) (w : W) : BRes W :=
  let r := lib.hashpipe_status_attach s.instance_id s w
  { v := if r.1 ≠ 0 then .Qtrue else .Qfalse, data := r.2.1, w := r.2.2,
    tr := [.attach s.instance_id r.1] }

/-- `rb_hps_attach`. `stack` is whatever the uninitialised local `tmp` holds
before `tmp.instance_id` is assigned. -/
def rb_hps_attach {W : Type} (lib : Lib W) (stack : hashpipe_status) (self : VALUE) (vid : Int)
    (s : hashpipe_status) (w : W) : Res W :=
  match NUM2INT vid with
  | .error e => { out := .raise e, s := s, w := w, tr := [.call .attach] }
  | .ok id =>
    match Data_Get_HPStruct_Ensure_Detached s with
    | .error e => { out := .raise e, s := s, w := w, tr := [.call .attach] }
    | .ok _ =>
      let tmp : hashpipe_status := { stack with instance_id := id }
      let r := rb_thread_blocking_region (rb_hps_attach_blocking_func lib) tmp w
      if RTEST r.v then
        { out := .raise (.RuntimeError ("could not attach to instance id " ++ toString id)),
          s := s, w := r.w, tr := .call .attach :: r.tr }
      else
        { out := .ret self, s := r.data, w := r.w, tr := .call .attach :: r.tr }

/-- `rb_hps_init`. -/
def rb_hps_init {W : Type} (lib : Lib W) (stack : hashpipe_status) (self : VALUE) (vid : Int)
    (s : hashpipe_status) (w : W) : Res W :=
  rb_hps_attach lib stack self vid s w

/-- `rb_hps_detach`. -/
def rb_hps_detach {W : Type} (lib : Lib W) (self : VALUE) (s : hashpipe_status) (w : W) : Res W :=
  if s.buf ≠ 0 then
    let r := lib.hashpipe_status_detach s w
    if r.1 ≠ 0 then
      { out := .raise (.RuntimeError ("could not detach")), s := s, w := r.2,
        tr := [.call .detach, .detach r.1] }
    else
      { out := .ret self, s := { s with buf := 0 }, w := r.2, tr := [.call .detach, .detach r.1] }
  else
    { out := .ret self, s := s, w := w, tr := [.call .detach] }

/-- `rb_hps_attached_p`. -/
def rb_hps_attached_p {W : Type} (s : hashpipe_status) (w : W) : Res W :=
  { out := .ret (if s.buf ≠ 0 then .Qtrue else .Qfalse), s := s, w := w, tr := [] }

/-- `rb_hps_instance_id`. -/
def rb_hps_instance_id {W : Type} (s : hashpipe_status) (w : W) : Res W :=
  { out := .ret (if s.buf ≠ 0 then INT2NUM s.instance_id else .Qnil), s := s, w := w, tr := [] }

/-- `rb_hps_unlock`. -/
def rb_hps_unlock {W : Type} (lib : Lib W) (self : VALUE) (s : hashpipe_status) (w : W) : Res W :=
  match Data_Get_HPStruct_Ensure_Attached s with
  | .error e => { out := .raise e, s := s, w := w, tr := [.call .unlock] }
  | .ok _ =>
    let r := lib.hashpipe_status_unlock s w
    if r.1 ≠ 0 then
      { out := .raise (.RuntimeError ("unlock error")), s := s, w := r.2,
        tr := [.call .unlock, .unlock r.1] }
    else
      { out := .ret self, s := s, w := r.2, tr := [.call .unlock, .unlock r.1] }

/-- `rb_hps_lock_blocking_func`: calls the lock primitive; `Qtrue` on error. -/
def rb_hps_lock_blocking_func {W : Type} (lib : Lib W) (s : hashpipe_status) (w : W) : BRes W :=
  let r := lib.hashpipe_status_lock s w
  { v := if r.1 ≠ 0 then .Qtrue else .Qfalse, data := s, w := r.2, tr := [.lock r.1] }

/-- `rb_hps_lock`. `blk` is the block given to the call, if any
(`rb_block_given_p`). -/
def rb_hps_lock {W : Type} (lib : Lib W) (self : VALUE) (blk : Option (Block W))
    (s : hashpipe_status) (w : W) : Res W :=
  match Data_Get_HPStruct_Ensure_Attached s with
  | .error e => { out := .raise e, s := s, w := w, tr := [.call .lock] }
  | .ok _ =>
    let r := rb_thread_blocking_region (rb_hps_lock_blocking_func lib) s w
    if RTEST r.v then
      { out := .raise (.RuntimeError ("lock error")), s := s, w := r.w, tr := .call .lock :: r.tr }
    else
      match blk with
      | some b =>
        let e := rb_ensure (rb_yield b) self (rb_hps_unlock lib) self s r.w
        { e with tr := .call .lock :: (r.tr ++ e.tr) }
      | none => { out := .ret self, s := s, w := r.w, tr := .call .lock :: r.tr }

/-! ## Lock state and library contract -/

/-- Lock state as the specification words it (section 4.3): it is not stored in
the handle; a zero result of the lock primitive makes it Locked (`true`), a zero
result of the unlock primitive makes it Unlocked (`false`), nothing else moves it. -/
def lockedAfter (locked : Bool) : List Ev → Bool
  | [] => locked
  | .lock rc :: t => lockedAfter (if rc = 0 then true else locked) t
  | .unlock rc :: t => lockedAfter (if rc = 0 then false else locked) t
  | _ :: t => lockedAfter locked t

/-- Contract of the library's attach primitive on which the wrapper relies: when
it reports zero, the record it filled points at a mapped buffer. -/
def AttachMaps {W : Type} (lib : Lib W) : Prop :=
  ∀ id t w, (lib.hashpipe_status_attach id t w).1 = 0 →
    (lib.hashpipe_status_attach id t w).2.1.buf ≠ 0

/-- Contract of the library's attach primitive on which the wrapper relies: when
it reports zero, the record it filled carries the instance id it was called with. -/
def AttachKeepsId {W : Type} (lib : Lib W) : Prop :=
  ∀ id t w, (lib.hashpipe_status_attach id t w).1 = 0 →
    (lib.hashpipe_status_attach id t w).2.1.instance_id = id

/-! ## Concrete libraries and blocks for the scenarios -/

/-- A library over a trivial world whose primitives report the given status
codes. Attach writes the instance id, a buffer address and a further field into
the record whatever status it reports. -/
def demoLib (rcAttach rcDetach rcLock rcUnlock : Int) : Lib Unit where
  hashpipe_status_attach := fun id _ _ =>
    (rcAttach, { instance_id := id, buf := 4096, rest := 7 }, ())
  hashpipe_status_detach := fun _ _ => (rcDetach, ())
  hashpipe_status_lock := fun _ _ => (rcLock, ())
  hashpipe_status_unlock := fun _ _ => (rcUnlock, ())

/-- A library like `demoLib 0 0 0 0`, except that attach fails for instance 99. -/
def lib99 : Lib Unit where
  hashpipe_status_attach := fun id _ _ =>
    (if id = 99 then -1 else 0, { instance_id := id, buf := 4096, rest := 7 }, ())
  hashpipe_status_detach := fun _ _ => (0, ())
  hashpipe_status_lock := fun _ _ => (0, ())
  hashpipe_status_unlock := fun _ _ => (0, ())

/-- The record of a handle attached to instance 5. -/
def attached5 : hashpipe_status := { instance_id := 5, buf := 4096, rest := 7 }

/-- A block that raises. -/
def raisingBlock : Block Unit :=
  fun _ s w => { out := .raise (.other 7), s := s, w := w, tr := [] }

/-- A block that returns `nil`. -/
def nilBlock : Block Unit :=
  fun _ s w => { out := .ret .Qnil, s := s, w := w, tr := [] }

/-- A block that calls `detach` on the handle it is given. -/
def detachingBlock (lib : Lib Unit) : Block Unit :=
  fun v s w => rb_hps_detach lib v s w

/-- A block that returns the value it is given. -/
def echoBlock : Block Unit :=
  fun v s w => { out := .ret v, s := s, w := w, tr := [] }

/-- A block that returns the Integer 42. -/
def answerBlock : Block Unit :=
  fun _ s w => { out := .ret (.Integer 42), s := s, w := w, tr := [] }

/-! ## Destruction of the object -/

/-- What is left once an object has been destroyed: the world and the events of
the destruction. The record itself is gone. -/
structure Freed (W : Type) where
  w : W
  tr : List Ev

/-- The C library's `free(p)`: gives back the memory of the record it is pointed
at. It is handed nothing but that pointer, so the world is as before and no
event takes place. -/
def free {W : Type} (_p : hashpipe_status) (w : W) : Freed W :=
  { w := w, tr := [] }

/-- The finalizer of a `Hashpipe::Status` object, that is the function Ruby
calls on the record when it destroys the object: `rb_hps_alloc` registers `free`
for it (fourth argument of `Data_Make_Struct`; the mark function is 0). -/
def rb_hps_finalize {W : Type} (p : hashpipe_status) (w : W) : Freed W :=
  free p w

/-! ## Sequences of calls -/

/-- Scenario D as a caller runs it on a new object: `attach(vid)`, `lock`
without a block, `unlock`, `detach`, each call on the record and world the
previous one left. -/
def scenarioD {W : Type} (lib : Lib W) (stack : hashpipe_status) (self : VALUE) (vid : Int)
    (w : W) : Res W × Res W × Res W × Res W :=
  let h : Res W := rb_hps_alloc w
  let r1 := rb_hps_attach lib stack self vid h.s h.w
  let r2 := rb_hps_lock lib self none r1.s r1.w
  let r3 := rb_hps_unlock lib self r2.s r2.w
  let r4 := rb_hps_detach lib self r3.s r3.w
  (r1, r2, r3, r4)

/-- All four primitives of the library report zero, whatever they are given. -/
def AllZero {W : Type} (lib : Lib W) : Prop :=
  (∀ id t w, (lib.hashpipe_status_attach id t w).1 = 0)
  ∧ (∀ s w, (lib.hashpipe_status_detach s w).1 = 0)
  ∧ (∀ s w, (lib.hashpipe_status_lock s w).1 = 0)
  ∧ (∀ s w, (lib.hashpipe_status_unlock s w).1 = 0)

/-- The two query methods. -/
inductive Query where
  | attached_p
  | instance_id
  deriving DecidableEq, Repr

/-- Runs one query method. -/
def Query.run {W : Type} (q : Query) (s : hashpipe_status) (w : W) : Res W :=
  match q with
  | .attached_p => rb_hps_attached_p s w
  | .instance_id => rb_hps_instance_id s w

/-- Runs a list of queries one after the other, each on the record and world the
previous one left; yields the last record and world and all the events. -/
def runQueries {W : Type} : List Query → hashpipe_status → W → hashpipe_status × W × List Ev
  | [], s, w => (s, w, [])
  | q :: qs, s, w =>
    let r := q.run s w
    let rest := runQueries qs r.s r.w
    (rest.1, rest.2.1, r.tr ++ rest.2.2)

/-- A library whose world is the number of status buffers currently mapped:
attach maps one more, detach unmaps one, and all primitives report zero. -/
def countingLib : Lib Nat where
  hashpipe_status_attach := fun id _ n => (0, { instance_id := id, buf := 4096, rest := 7 }, n + 1)
  hashpipe_status_detach := fun _ n => (0, n - 1)
  hashpipe_status_lock := fun _ n => (0, n)
  hashpipe_status_unlock := fun _ n => (0, n)

end Hashpipe

namespace Hashpipe

/-! ## How each wrapper unfolds, case by case -/

/-- `unlock` on a detached handle. -/
theorem rb_hps_unlock_detached {W : Type} (lib : Lib W) (self : VALUE) (s : hashpipe_status)
    (w : W) (h : s.buf = 0) :
    rb_hps_unlock lib self s w
      = { out := .raise (.RuntimeError ("not attached")), s := s, w := w,
          tr := [.call .unlock] } := by
  simp [rb_hps_unlock, Data_Get_HPStruct_Ensure_Attached, h]

/-- `unlock` on an attached handle when the primitive reports an error. -/
theorem rb_hps_unlock_fail {W : Type} (lib : Lib W) (self : VALUE) (s : hashpipe_status)
    (w : W) (h : s.buf ≠ 0) (hrc : (lib.hashpipe_status_unlock s w).1 ≠ 0) :
    rb_hps_unlock lib self s w
      = { out := .raise (.RuntimeError ("unlock error")), s := s,
          w := (lib.hashpipe_status_unlock s w).2,
          tr := [.call .unlock, .unlock (lib.hashpipe_status_unlock s w).1] } := by
  simp [rb_hps_unlock, Data_Get_HPStruct_Ensure_Attached, h, hrc]

/-- `unlock` on an attached handle when the primitive reports zero. -/
theorem rb_hps_unlock_ok {W : Type} (lib : Lib W) (self : VALUE) (s : hashpipe_status)
    (w : W) (h : s.buf ≠ 0) (hrc : (lib.hashpipe_status_unlock s w).1 = 0) :
    rb_hps_unlock lib self s w
      = { out := .ret self, s := s, w := (lib.hashpipe_status_unlock s w).2,
          tr := [.call .unlock, .unlock 0] } := by
  simp [rb_hps_unlock, Data_Get_HPStruct_Ensure_Attached, h, hrc]

/-- `lock` on a detached handle, with or without a block. -/
theorem rb_hps_lock_detached {W : Type} (lib : Lib W) (self : VALUE) (blk : Option (Block W))
    (s : hashpipe_status) (w : W) (h : s.buf = 0) :
    rb_hps_lock lib self blk s w
      = { out := .raise (.RuntimeError ("not attached")), s := s, w := w,
          tr := [.call .lock] } := by
  simp [rb_hps_lock, Data_Get_HPStruct_Ensure_Attached, h]

/-- `lock` on an attached handle when the primitive reports an error, with or
without a block. -/
theorem rb_hps_lock_fail {W : Type} (lib : Lib W) (self : VALUE) (blk : Option (Block W))
    (s : hashpipe_status) (w : W) (h : s.buf ≠ 0)
    (hrc : (lib.hashpipe_status_lock s w).1 ≠ 0) :
    rb_hps_lock lib self blk s w
      = { out := .raise (.RuntimeError ("lock error")), s := s,
          w := (lib.hashpipe_status_lock s w).2,
          tr := [.call .lock, .lock (lib.hashpipe_status_lock s w).1] } := by
  have hs : ¬ s.buf = 0 := h
  simp [rb_hps_lock, Data_Get_HPStruct_Ensure_Attached, rb_thread_blocking_region,
    rb_hps_lock_blocking_func, hs, hrc, RTEST]

/-- `lock` without a block on an attached handle when the primitive reports zero. -/
theorem rb_hps_lock_none {W : Type} (lib : Lib W) (self : VALUE) (s : hashpipe_status) (w : W)
    (h : s.buf ≠ 0) (hrc : (lib.hashpipe_status_lock s w).1 = 0) :
    rb_hps_lock lib self none s w
      = { out := .ret self, s := s, w := (lib.hashpipe_status_lock s w).2,
          tr := [.call .lock, .lock 0] } := by
  have hs : ¬ s.buf = 0 := h
  simp [rb_hps_lock, Data_Get_HPStruct_Ensure_Attached, rb_thread_blocking_region,
    rb_hps_lock_blocking_func, hs, hrc, RTEST]

/-- `lock` with a block on an attached handle when the primitive reports zero:
what `rb_ensure` makes of the block and `unlock`, after the events of the lock. -/
theorem rb_hps_lock_some {W : Type} (lib : Lib W) (self : VALUE) (b : Block W)
    (s : hashpipe_status) (w : W) (h : s.buf ≠ 0)
    (hrc : (lib.hashpipe_status_lock s w).1 = 0) :
    rb_hps_lock lib self (some b) s w
      = { rb_ensure (rb_yield b) self (rb_hps_unlock lib) self s
            (lib.hashpipe_status_lock s w).2 with
          tr := .call .lock :: .lock 0 ::
            (rb_ensure (rb_yield b) self (rb_hps_unlock lib) self s
              (lib.hashpipe_status_lock s w).2).tr } := by
  have hs : ¬ s.buf = 0 := h
  simp [rb_hps_lock, Data_Get_HPStruct_Ensure_Attached, rb_thread_blocking_region,
    rb_hps_lock_blocking_func, hs, hrc, RTEST]

/-- `detach` on a detached handle. -/
theorem rb_hps_detach_detached {W : Type} (lib : Lib W) (self : VALUE) (s : hashpipe_status)
    (w : W) (h : s.buf = 0) :
    rb_hps_detach lib self s w = { out := .ret self, s := s, w := w, tr := [.call .detach] } := by
  simp [rb_hps_detach, h]

/-- `detach` on an attached handle when the primitive reports an error. -/
theorem rb_hps_detach_fail {W : Type} (lib : Lib W) (self : VALUE) (s : hashpipe_status)
    (w : W) (h : s.buf ≠ 0) (hrc : (lib.hashpipe_status_detach s w).1 ≠ 0) :
    rb_hps_detach lib self s w
      = { out := .raise (.RuntimeError ("could not detach")), s := s,
          w := (lib.hashpipe_status_detach s w).2,
          tr := [.call .detach, .detach (lib.hashpipe_status_detach s w).1] } := by
  simp [rb_hps_detach, h, hrc]

/-- `detach` on an attached handle when the primitive reports zero. -/
theorem rb_hps_detach_ok {W : Type} (lib : Lib W) (self : VALUE) (s : hashpipe_status)
    (w : W) (h : s.buf ≠ 0) (hrc : (lib.hashpipe_status_detach s w).1 = 0) :
    rb_hps_detach lib self s w
      = { out := .ret self, s := { s with buf := 0 }, w := (lib.hashpipe_status_detach s w).2,
          tr := [.call .detach, .detach 0] } := by
  simp [rb_hps_detach, h, hrc]

/-- `attach` with an argument that does not fit a C `int`. -/
theorem rb_hps_attach_range {W : Type} (lib : Lib W) (stack : hashpipe_status) (self : VALUE)
    (vid : Int) (s : hashpipe_status) (w : W) (hr : ¬ (INT_MIN ≤ vid ∧ vid ≤ INT_MAX)) :
    rb_hps_attach lib stack self vid s w
      = { out := .raise .RangeError, s := s, w := w, tr := [.call .attach] } := by
  simp [rb_hps_attach, NUM2INT, hr]

/-- `attach` on an attached handle. -/
theorem rb_hps_attach_attached {W : Type} (lib : Lib W) (stack : hashpipe_status)
    (self : VALUE) (vid : Int) (s : hashpipe_status) (w : W)
    (hr : INT_MIN ≤ vid ∧ vid ≤ INT_MAX) (h : s.buf ≠ 0) :
    rb_hps_attach lib stack self vid s w
      = { out := .raise (.RuntimeError ("already attached")), s := s, w := w,
          tr := [.call .attach] } := by
  simp [rb_hps_attach, Data_Get_HPStruct_Ensure_Detached, NUM2INT, hr, h]

/-- `attach` on a detached handle when the primitive reports an error. -/
theorem rb_hps_attach_fail {W : Type} (lib : Lib W) (stack : hashpipe_status) (self : VALUE)
    (vid : Int) (s : hashpipe_status) (w : W) (hr : INT_MIN ≤ vid ∧ vid ≤ INT_MAX)
    (h : s.buf = 0)
    (hrc : (lib.hashpipe_status_attach vid { stack with instance_id := vid } w).1 ≠ 0) :
    rb_hps_attach lib stack self vid s w
      = { out := .raise (.RuntimeError ("could not attach to instance id " ++ toString vid)),
          s := s,
          w := (lib.hashpipe_status_attach vid { stack with instance_id := vid } w).2.2,
          tr := [.call .attach, .attach vid
            (lib.hashpipe_status_attach vid { stack with instance_id := vid } w).1] } := by
  simp [rb_hps_attach, Data_Get_HPStruct_Ensure_Detached, NUM2INT, hr, h,
    rb_thread_blocking_region, rb_hps_attach_blocking_func, hrc, RTEST]

/-- `attach` on a detached handle when the primitive reports zero: the record
becomes the one the primitive filled. -/
theorem rb_hps_attach_ok {W : Type} (lib : Lib W) (stack : hashpipe_status) (self : VALUE)
    (vid : Int) (s : hashpipe_status) (w : W) (hr : INT_MIN ≤ vid ∧ vid ≤ INT_MAX)
    (h : s.buf = 0)
    (hrc : (lib.hashpipe_status_attach vid { stack with instance_id := vid } w).1 = 0) :
    rb_hps_attach lib stack self vid s w
      = { out := .ret self,
          s := (lib.hashpipe_status_attach vid { stack with instance_id := vid } w).2.1,
          w := (lib.hashpipe_status_attach vid { stack with instance_id := vid } w).2.2,
          tr := [.call .attach, .attach vid 0] } := by
  simp [rb_hps_attach, Data_Get_HPStruct_Ensure_Detached, NUM2INT, hr, h,
    rb_thread_blocking_region, rb_hps_attach_blocking_func, hrc, RTEST]

/-! ## Scoped critical section -/

/-- The events of `rb_ensure` are those of `b_proc` followed by those of `e_proc`,
however either of them leaves. -/
theorem rb_ensure_tr {W : Type} (b_proc e_proc : VALUE → hashpipe_status → W → Res W)
    (data1 data2 : VALUE) (s : hashpipe_status) (w : W) :
    (rb_ensure b_proc data1 e_proc data2 s w).tr
      = (b_proc data1 s w).tr ++ (e_proc data2 (b_proc data1 s w).s (b_proc data1 s w).w).tr := by
  simp only [rb_ensure]
  cases (e_proc data2 (b_proc data1 s w).s (b_proc data1 s w).w).out <;> rfl

/-- C1. Scoped critical section: on an attached handle, once the lock primitive
has reported zero, whatever the block does (return, raise, jump), `rb_hps_lock`
enters `rb_hps_unlock` exactly once: the events of the whole call are its own
entry and the lock primitive, then the events of the block, then the single entry
of unlock followed by nothing but the unlock primitive that this entry invokes
(if it invokes it); the state the call leaves is the state unlock left. -/
theorem scoped_lock_runs_unlock_once {W : Type} (lib : Lib W) (self : VALUE) (blk : Block W)
    (s : hashpipe_status) (w : W) (hatt : s.buf ≠ 0)
    (hlock : (lib.hashpipe_status_lock s w).1 = 0) :
    ∃ tail : List Ev,
      (rb_hps_lock lib self (some blk) s w).tr
        = .call .lock :: .lock 0 ::
            ((blk self s (lib.hashpipe_status_lock s w).2).tr ++ .call .unlock :: tail)
      ∧ (tail = [] ∨ ∃ rc, tail = [.unlock rc])
      ∧ (rb_hps_unlock lib self (blk self s (lib.hashpipe_status_lock s w).2).s
            (blk self s (lib.hashpipe_status_lock s w).2).w).tr = .call .unlock :: tail
      ∧ (rb_hps_lock lib self (some blk) s w).s
          = (rb_hps_unlock lib self (blk self s (lib.hashpipe_status_lock s w).2).s
              (blk self s (lib.hashpipe_status_lock s w).2).w).s
      ∧ (rb_hps_lock lib self (some blk) s w).w
          = (rb_hps_unlock lib self (blk self s (lib.hashpipe_status_lock s w).2).s
              (blk self s (lib.hashpipe_status_lock s w).2).w).w := by
  have hs : ¬ s.buf = 0 := hatt
  simp only [rb_hps_lock, Data_Get_HPStruct_Ensure_Attached, rb_thread_blocking_region,
    rb_hps_lock_blocking_func, rb_ensure, rb_yield, hs, hlock, if_false, ne_eq,
    not_true_eq_false, RTEST]
  generalize blk self s (lib.hashpipe_status_lock s w).2 = b
  unfold rb_hps_unlock Data_Get_HPStruct_Ensure_Attached
  by_cases hb : b.s.buf = 0
  · refine ⟨[], ?_⟩
    simp [hb]
  · by_cases hu : (lib.hashpipe_status_unlock b.s b.w).1 = 0
    · refine ⟨[.unlock (lib.hashpipe_status_unlock b.s b.w).1], ?_⟩
      simp [hb, hu]
    · refine ⟨[.unlock (lib.hashpipe_status_unlock b.s b.w).1], ?_⟩
      simp [hb, hu]

/-- C1, witness: the handle attached to instance 5, a library whose primitives
all report zero, and a block that raises. -/
theorem scoped_lock_runs_unlock_once_witness :
    attached5.buf ≠ 0 ∧ ((demoLib 0 0 0 0).hashpipe_status_lock attached5 ()).1 = 0 ∧
    ∃ tail : List Ev,
      (rb_hps_lock (demoLib 0 0 0 0) .status (some raisingBlock) attached5 ()).tr
        = .call .lock :: .lock 0 ::
            ((raisingBlock .status attached5
                ((demoLib 0 0 0 0).hashpipe_status_lock attached5 ()).2).tr
              ++ .call .unlock :: tail)
      ∧ (tail = [] ∨ ∃ rc, tail = [.unlock rc])
      ∧ (rb_hps_unlock (demoLib 0 0 0 0) .status
            (raisingBlock .status attached5
              ((demoLib 0 0 0 0).hashpipe_status_lock attached5 ()).2).s
            (raisingBlock .status attached5
              ((demoLib 0 0 0 0).hashpipe_status_lock attached5 ()).2).w).tr
          = .call .unlock :: tail
      ∧ (rb_hps_lock (demoLib 0 0 0 0) .status (some raisingBlock) attached5 ()).s
          = (rb_hps_unlock (demoLib 0 0 0 0) .status
              (raisingBlock .status attached5
                ((demoLib 0 0 0 0).hashpipe_status_lock attached5 ()).2).s
              (raisingBlock .status attached5
                ((demoLib 0 0 0 0).hashpipe_status_lock attached5 ()).2).w).s
      ∧ (rb_hps_lock (demoLib 0 0 0 0) .status (some raisingBlock) attached5 ()).w
          = (rb_hps_unlock (demoLib 0 0 0 0) .status
              (raisingBlock .status attached5
                ((demoLib 0 0 0 0).hashpipe_status_lock attached5 ()).2).s
              (raisingBlock .status attached5
                ((demoLib 0 0 0 0).hashpipe_status_lock attached5 ()).2).w).w :=
  ⟨by decide, rfl,
    scoped_lock_runs_unlock_once (demoLib 0 0 0 0) .status raisingBlock attached5 ()
      (by decide) rfl⟩

/-- C2, as stated, fails: on the handle attached to instance 5, with a lock
primitive that reports zero, an unlock primitive that reports 1 and a block that
raises exception 7, the call raises "unlock error", not exception 7. -/
theorem cleanup_unlock_failure_masks_block_failure :
    attached5.buf ≠ 0 ∧ ((demoLib 0 0 0 1).hashpipe_status_lock attached5 ()).1 = 0 ∧
    (raisingBlock .status attached5 ((demoLib 0 0 0 1).hashpipe_status_lock attached5 ()).2).out
      = .raise (.other 7) ∧
    (rb_hps_lock (demoLib 0 0 0 1) .status (some raisingBlock) attached5 ()).out
      = .raise (.RuntimeError ("unlock error")) ∧
    (rb_hps_lock (demoLib 0 0 0 1) .status (some raisingBlock) attached5 ()).out
      ≠ .raise (.other 7) := by
  refine ⟨by decide, rfl, rfl, rfl, ?_⟩
  decide

/-- C2, amended. On an attached handle whose lock primitive reported zero, when
the block raises `e` the call runs unlock after the block (its events close the
trace) and then: if that unlock returned, the call raises `e`; if that unlock
raised (which can only be "unlock error" or "not attached"), the call raises the
exception of the unlock instead of `e`. -/
theorem scoped_lock_failure_after_cleanup {W : Type} (lib : Lib W) (self : VALUE)
    (blk : Block W) (s : hashpipe_status) (w : W) (e : Exn) (hatt : s.buf ≠ 0)
    (hlock : (lib.hashpipe_status_lock s w).1 = 0)
    (hblk : (blk self s (lib.hashpipe_status_lock s w).2).out = .raise e) :
    (rb_hps_lock lib self (some blk) s w).tr
        = .call .lock :: .lock 0 ::
            ((blk self s (lib.hashpipe_status_lock s w).2).tr
              ++ (rb_hps_unlock lib self (blk self s (lib.hashpipe_status_lock s w).2).s
                    (blk self s (lib.hashpipe_status_lock s w).2).w).tr)
    ∧ ((rb_hps_unlock lib self (blk self s (lib.hashpipe_status_lock s w).2).s
            (blk self s (lib.hashpipe_status_lock s w).2).w).out = .ret self
        ∧ (rb_hps_lock lib self (some blk) s w).out = .raise e
      ∨ (rb_hps_unlock lib self (blk self s (lib.hashpipe_status_lock s w).2).s
            (blk self s (lib.hashpipe_status_lock s w).2).w).out
          = .raise (.RuntimeError ("unlock error"))
        ∧ (rb_hps_lock lib self (some blk) s w).out = .raise (.RuntimeError ("unlock error"))
      ∨ (rb_hps_unlock lib self (blk self s (lib.hashpipe_status_lock s w).2).s
            (blk self s (lib.hashpipe_status_lock s w).2).w).out
          = .raise (.RuntimeError ("not attached"))
        ∧ (rb_hps_lock lib self (some blk) s w).out
          = .raise (.RuntimeError ("not attached"))) := by
  have hs : ¬ s.buf = 0 := hatt
  simp only [rb_hps_lock, Data_Get_HPStruct_Ensure_Attached, rb_thread_blocking_region,
    rb_hps_lock_blocking_func, rb_ensure, rb_yield, hs, hlock, if_false, ne_eq,
    not_true_eq_false, RTEST]
  revert hblk
  generalize blk self s (lib.hashpipe_status_lock s w).2 = b
  intro hblk
  unfold rb_hps_unlock Data_Get_HPStruct_Ensure_Attached
  by_cases hb : b.s.buf = 0
  · simp [hb]
  · by_cases hu : (lib.hashpipe_status_unlock b.s b.w).1 = 0
    · simp [hb, hu, hblk]
    · simp [hb, hu]

/-- C2 amended, witness: the block raises exception 7 and the cleanup unlock
succeeds. -/
theorem scoped_lock_failure_after_cleanup_witness :
    (rb_hps_lock (demoLib 0 0 0 0) .status (some raisingBlock) attached5 ()).out
      = .raise (.other 7) := by
  have h := scoped_lock_failure_after_cleanup (demoLib 0 0 0 0) .status raisingBlock
    attached5 () (.other 7) (by decide) rfl rfl
  rcases h.2 with h1 | h1 | h1
  · exact h1.2
  · exact absurd h1.1 (by decide)
  · exact absurd h1.1 (by decide)

/-! ## attach -/

/-- C3, as stated, fails: on the handle attached to instance 5, `attach` with the
Integer 2147483648 raises `RangeError` from the conversion of its argument, not
"already attached". -/
theorem attach_on_attached_out_of_range :
    attached5.buf ≠ 0 ∧
    (rb_hps_attach (demoLib 0 0 0 0) zeroed .status 2147483648 attached5 ()).out
      = .raise .RangeError ∧
    (rb_hps_attach (demoLib 0 0 0 0) zeroed .status 2147483648 attached5 ()).out
      ≠ .raise (.RuntimeError ("already attached")) := by
  refine ⟨by decide, rfl, ?_⟩
  decide

/-- C3, amended. On an attached handle `attach` always raises, never invokes a
library primitive and changes nothing: record and world are as before, so
`attached?` is still true and `instance_id` returns what it returned before. The
exception is "already attached" for every argument that fits a C `int`; for any
other argument it is the `RangeError` of the conversion, which comes first. -/
theorem attach_on_attached_fails {W : Type} (lib : Lib W) (stack : hashpipe_status)
    (self : VALUE) (vid : Int) (s : hashpipe_status) (w : W) (hatt : s.buf ≠ 0) :
    (INT_MIN ≤ vid ∧ vid ≤ INT_MAX →
        (rb_hps_attach lib stack self vid s w).out = .raise (.RuntimeError ("already attached")))
    ∧ (¬ (INT_MIN ≤ vid ∧ vid ≤ INT_MAX) →
        (rb_hps_attach lib stack self vid s w).out = .raise .RangeError)
    ∧ (∀ e ∈ (rb_hps_attach lib stack self vid s w).tr, e.isPrim = false)
    ∧ (rb_hps_attach lib stack self vid s w).s = s
    ∧ (rb_hps_attach lib stack self vid s w).w = w
    ∧ (rb_hps_attached_p (rb_hps_attach lib stack self vid s w).s
          (rb_hps_attach lib stack self vid s w).w).out = .ret .Qtrue
    ∧ (rb_hps_instance_id (rb_hps_attach lib stack self vid s w).s
          (rb_hps_attach lib stack self vid s w).w).out = (rb_hps_instance_id s w).out := by
  by_cases hr : INT_MIN ≤ vid ∧ vid ≤ INT_MAX
  · simp [rb_hps_attach, Data_Get_HPStruct_Ensure_Detached, NUM2INT, hr, hatt,
      rb_hps_attached_p, rb_hps_instance_id, Ev.isPrim]
  · simp [rb_hps_attach, Data_Get_HPStruct_Ensure_Detached, NUM2INT, hr, hatt,
      rb_hps_attached_p, rb_hps_instance_id, Ev.isPrim]

/-- C3 amended, witness: the second `attach(5)` of scenario B. -/
theorem attach_on_attached_fails_witness :
    (rb_hps_attach (demoLib 0 0 0 0) zeroed .status 5 attached5 ()).out
      = .raise (.RuntimeError ("already attached"))
    ∧ (rb_hps_instance_id (rb_hps_attach (demoLib 0 0 0 0) zeroed .status 5 attached5 ()).s
          (rb_hps_attach (demoLib 0 0 0 0) zeroed .status 5 attached5 ()).w).out
        = .ret (.Integer 5) :=
  ⟨(attach_on_attached_fails (demoLib 0 0 0 0) zeroed .status 5 attached5 ()
      (by decide)).1 (by decide),
   (attach_on_attached_fails (demoLib 0 0 0 0) zeroed .status 5 attached5 ()
      (by decide)).2.2.2.2.2.2.trans rfl⟩

/-- C4. Attach atomicity on failure: on a detached handle, if `attach(vid)`
invoked the attach primitive and the primitive reported a non-zero status, then
the primitive was given `vid`, the call raises "could not attach to instance id
vid", and record and handle are exactly as before (`attached?` is false),
whatever `tmp` held at first and whatever the primitive wrote into it. -/
theorem attach_failure_leaves_detached {W : Type} (lib : Lib W) (stack : hashpipe_status)
    (self : VALUE) (vid : Int) (s : hashpipe_status) (w : W) (id rc : Int)
    (hdet : s.buf = 0)
    (hcall : Ev.attach id rc ∈ (rb_hps_attach lib stack self vid s w).tr)
    (hrc : rc ≠ 0) :
    id = vid
    ∧ (rb_hps_attach lib stack self vid s w).out
        = .raise (.RuntimeError ("could not attach to instance id " ++ toString vid))
    ∧ (rb_hps_attach lib stack self vid s w).s = s
    ∧ (rb_hps_attached_p (rb_hps_attach lib stack self vid s w).s
          (rb_hps_attach lib stack self vid s w).w).out = .ret .Qfalse := by
  by_cases hr : INT_MIN ≤ vid ∧ vid ≤ INT_MAX
  · simp only [rb_hps_attach, Data_Get_HPStruct_Ensure_Detached, NUM2INT, hr, hdet,
      rb_thread_blocking_region, rb_hps_attach_blocking_func, and_self, if_true, ne_eq,
      not_true_eq_false, if_false] at hcall ⊢
    by_cases h0 : (lib.hashpipe_status_attach vid { stack with instance_id := vid } w).1 = 0
    · simp [h0, RTEST] at hcall
      omega
    · simp [h0, RTEST] at hcall
      simp [h0, RTEST, rb_hps_attached_p, hdet, hcall.1]
  · simp [rb_hps_attach, Data_Get_HPStruct_Ensure_Detached, NUM2INT, hr] at hcall

/-- C4, witness: scenario E, `attach(99)` against a library whose attach fails
for instance 99. -/
theorem attach_failure_leaves_detached_witness :
    (rb_hps_attach lib99 attached5 .status 99 zeroed ()).out
        = .raise (.RuntimeError ("could not attach to instance id 99"))
    ∧ (rb_hps_attached_p (rb_hps_attach lib99 attached5 .status 99 zeroed ()).s
          (rb_hps_attach lib99 attached5 .status 99 zeroed ()).w).out = .ret .Qfalse :=
  have h := attach_failure_leaves_detached lib99 attached5 .status 99 zeroed () 99 (-1)
    rfl (by decide) (by decide)
  ⟨h.2.1.trans (by decide), h.2.2.2⟩

/-! ## lock and unlock on a detached handle -/

/-- C5. On a detached handle, `lock` (with any block or with none) and `unlock`
raise "not attached"; the only event of the call is its own entry, so neither a
library primitive nor the block is run, and record and world are as before (the
handle is still detached). -/
theorem lock_unlock_detached {W : Type} (lib : Lib W) (self : VALUE) (blk : Option (Block W))
    (s : hashpipe_status) (w : W) (hdet : s.buf = 0) :
    (rb_hps_lock lib self blk s w).out = .raise (.RuntimeError ("not attached"))
    ∧ (rb_hps_lock lib self blk s w).tr = [.call .lock]
    ∧ (rb_hps_lock lib self blk s w).s = s
    ∧ (rb_hps_lock lib self blk s w).w = w
    ∧ (rb_hps_unlock lib self s w).out = .raise (.RuntimeError ("not attached"))
    ∧ (rb_hps_unlock lib self s w).tr = [.call .unlock]
    ∧ (rb_hps_unlock lib self s w).s = s
    ∧ (rb_hps_unlock lib self s w).w = w := by
  simp [rb_hps_lock, rb_hps_unlock, Data_Get_HPStruct_Ensure_Attached, hdet]

/-- C5, witness: scenario C, `lock` on a fresh handle, here with a block that
would call `detach`: no event of the block shows. -/
theorem lock_unlock_detached_witness :
    (rb_hps_lock (demoLib 0 0 0 0) .status (some (detachingBlock (demoLib 0 0 0 0)))
        zeroed ()).out = .raise (.RuntimeError ("not attached"))
    ∧ (rb_hps_lock (demoLib 0 0 0 0) .status (some (detachingBlock (demoLib 0 0 0 0)))
        zeroed ()).tr = [.call .lock]
    ∧ (rb_hps_unlock (demoLib 0 0 0 0) .status zeroed ()).out
        = .raise (.RuntimeError ("not attached")) :=
  have h := lock_unlock_detached (demoLib 0 0 0 0) .status
    (some (detachingBlock (demoLib 0 0 0 0))) zeroed () rfl
  ⟨h.1, h.2.1, h.2.2.2.2.1⟩

/-! ## Lifecycle queries -/

/-- C6. Lifecycle observation, for a library whose attach fills in a mapped
buffer when it reports zero: `attached?` is false on the record `rb_hps_alloc`
creates; whenever `attach` returns (which it does only after the attach primitive,
called once with the argument, reported zero) `attached?` is true on the record it
leaves; whenever `detach` returns, from any handle, `attached?` is false on the
record it leaves. -/
theorem attached_p_lifecycle {W : Type} (lib : Lib W) (stack : hashpipe_status) (self : VALUE)
    (vid : Int) (s : hashpipe_status) (w : W) (hmaps : AttachMaps lib) :
    (rb_hps_attached_p (rb_hps_alloc w).s (rb_hps_alloc w).w).out = .ret .Qfalse
    ∧ (∀ v, (rb_hps_attach lib stack self vid s w).out = .ret v →
        (rb_hps_attach lib stack self vid s w).tr = [.call .attach, .attach vid 0]
        ∧ (rb_hps_attached_p (rb_hps_attach lib stack self vid s w).s
              (rb_hps_attach lib stack self vid s w).w).out = .ret .Qtrue)
    ∧ (∀ v, (rb_hps_detach lib self s w).out = .ret v →
        (rb_hps_attached_p (rb_hps_detach lib self s w).s
            (rb_hps_detach lib self s w).w).out = .ret .Qfalse) := by
  refine ⟨by simp [rb_hps_attached_p, rb_hps_alloc, zeroed], ?_, ?_⟩
  · intro v
    by_cases hr : INT_MIN ≤ vid ∧ vid ≤ INT_MAX
    · by_cases hb : s.buf = 0
      · by_cases h0 : (lib.hashpipe_status_attach vid { stack with instance_id := vid } w).1 = 0
        · have hm := hmaps vid { stack with instance_id := vid } w h0
          simp [rb_hps_attach, Data_Get_HPStruct_Ensure_Detached, NUM2INT, hr, hb,
            rb_thread_blocking_region, rb_hps_attach_blocking_func, h0, RTEST,
            rb_hps_attached_p, hm]
        · simp [rb_hps_attach, Data_Get_HPStruct_Ensure_Detached, NUM2INT, hr, hb,
            rb_thread_blocking_region, rb_hps_attach_blocking_func, h0, RTEST]
      · simp [rb_hps_attach, Data_Get_HPStruct_Ensure_Detached, NUM2INT, hr, hb]
    · simp [rb_hps_attach, Data_Get_HPStruct_Ensure_Detached, NUM2INT, hr]
  · intro v
    by_cases hb : s.buf = 0
    · simp [rb_hps_detach, hb, rb_hps_attached_p]
    · by_cases h0 : (lib.hashpipe_status_detach s w).1 = 0
      · simp [rb_hps_detach, hb, h0, rb_hps_attached_p]
      · simp [rb_hps_detach, hb, h0]

/-- The library `demoLib 0 0 0 0` fills in a mapped buffer. -/
theorem demoLib_maps : AttachMaps (demoLib 0 0 0 0) := by
  intro id t w _
  simp [demoLib]

/-- The library `demoLib 0 0 0 0` records the instance id it is given. -/
theorem demoLib_keeps_id : AttachKeepsId (demoLib 0 0 0 0) := by
  intro id t w _
  simp [demoLib]

/-- C6, witness: `attach(5)` on a fresh handle, then `detach` on the attached
handle. -/
theorem attached_p_lifecycle_witness :
    (rb_hps_attached_p (rb_hps_attach (demoLib 0 0 0 0) attached5 .status 5 zeroed ()).s
        (rb_hps_attach (demoLib 0 0 0 0) attached5 .status 5 zeroed ()).w).out = .ret .Qtrue
    ∧ (rb_hps_attached_p (rb_hps_detach (demoLib 0 0 0 0) .status attached5 ()).s
        (rb_hps_detach (demoLib 0 0 0 0) .status attached5 ()).w).out = .ret .Qfalse :=
  ⟨((attached_p_lifecycle (demoLib 0 0 0 0) attached5 .status 5 zeroed ()
      demoLib_maps).2.1 .status rfl).2,
   (attached_p_lifecycle (demoLib 0 0 0 0) zeroed .status 5 attached5 ()
      demoLib_maps).2.2 .status rfl⟩

/-- C7. `instance_id` returns the stored id exactly when the handle is attached
and `nil` otherwise. For a library whose attach, when it reports zero, fills in a
mapped buffer and the instance id it was given: whenever `attach(vid)` returns,
`instance_id` returns `vid` on the record it leaves; on the record `rb_hps_alloc`
creates, and on the record any `detach` that returns leaves, `instance_id`
returns `nil`. -/
theorem instance_id_lifecycle {W : Type} (lib : Lib W) (stack : hashpipe_status) (self : VALUE)
    (vid : Int) (s : hashpipe_status) (w : W) (hmaps : AttachMaps lib)
    (hkeeps : AttachKeepsId lib) :
    (rb_hps_instance_id s w).out
        = .ret (if s.buf ≠ 0 then VALUE.Integer s.instance_id else VALUE.Qnil)
    ∧ (∀ v, (rb_hps_attach lib stack self vid s w).out = .ret v →
        (rb_hps_instance_id (rb_hps_attach lib stack self vid s w).s
            (rb_hps_attach lib stack self vid s w).w).out = .ret (.Integer vid))
    ∧ (rb_hps_instance_id (rb_hps_alloc w).s (rb_hps_alloc w).w).out = .ret .Qnil
    ∧ (∀ v, (rb_hps_detach lib self s w).out = .ret v →
        (rb_hps_instance_id (rb_hps_detach lib self s w).s
            (rb_hps_detach lib self s w).w).out = .ret .Qnil) := by
  refine ⟨by simp [rb_hps_instance_id, INT2NUM], ?_,
    by simp [rb_hps_instance_id, rb_hps_alloc, zeroed], ?_⟩
  · intro v
    by_cases hr : INT_MIN ≤ vid ∧ vid ≤ INT_MAX
    · by_cases hb : s.buf = 0
      · by_cases h0 : (lib.hashpipe_status_attach vid { stack with instance_id := vid } w).1 = 0
        · have hm := hmaps vid { stack with instance_id := vid } w h0
          have hk := hkeeps vid { stack with instance_id := vid } w h0
          simp [rb_hps_attach, Data_Get_HPStruct_Ensure_Detached, NUM2INT, hr, hb,
            rb_thread_blocking_region, rb_hps_attach_blocking_func, h0, RTEST,
            rb_hps_instance_id, INT2NUM, hm, hk]
        · simp [rb_hps_attach, Data_Get_HPStruct_Ensure_Detached, NUM2INT, hr, hb,
            rb_thread_blocking_region, rb_hps_attach_blocking_func, h0, RTEST]
      · simp [rb_hps_attach, Data_Get_HPStruct_Ensure_Detached, NUM2INT, hr, hb]
    · simp [rb_hps_attach, Data_Get_HPStruct_Ensure_Detached, NUM2INT, hr]
  · intro v
    by_cases hb : s.buf = 0
    · simp [rb_hps_detach, hb, rb_hps_instance_id]
    · by_cases h0 : (lib.hashpipe_status_detach s w).1 = 0
      · simp [rb_hps_detach, hb, h0, rb_hps_instance_id]
      · simp [rb_hps_detach, hb, h0]

/-- C7, witness: scenario A, `attach(5)` on a fresh handle gives `instance_id` 5. -/
theorem instance_id_lifecycle_witness :
    (rb_hps_instance_id (rb_hps_attach (demoLib 0 0 0 0) zeroed .status 5 zeroed ()).s
        (rb_hps_attach (demoLib 0 0 0 0) zeroed .status 5 zeroed ()).w).out
      = .ret (.Integer 5) :=
  (instance_id_lifecycle (demoLib 0 0 0 0) zeroed .status 5 zeroed ()
    demoLib_maps demoLib_keeps_id).2.1 .status rfl

/-! ## detach -/

/-- C8. `detach` is idempotent. On a detached handle it returns `self`, its only
event is its own entry (the detach primitive is not invoked), and record and
world are as before. Hence, from any handle, when a first `detach` returns, a
second `detach` on what the first left returns `self` too and leaves that very
record and world. -/
theorem detach_idempotent {W : Type} (lib : Lib W) (self : VALUE) (s : hashpipe_status) (w : W) :
    (s.buf = 0 →
        rb_hps_detach lib self s w = { out := .ret self, s := s, w := w, tr := [.call .detach] })
    ∧ (∀ v, (rb_hps_detach lib self s w).out = .ret v →
        rb_hps_detach lib self (rb_hps_detach lib self s w).s (rb_hps_detach lib self s w).w
          = { out := .ret self, s := (rb_hps_detach lib self s w).s,
              w := (rb_hps_detach lib self s w).w, tr := [.call .detach] }) := by
  refine ⟨fun hb => by simp [rb_hps_detach, hb], ?_⟩
  intro v
  by_cases hb : s.buf = 0
  · simp [rb_hps_detach, hb]
  · by_cases h0 : (lib.hashpipe_status_detach s w).1 = 0
    · simp [rb_hps_detach, hb, h0]
    · simp [rb_hps_detach, hb, h0]

/-- C8, witness: `detach` twice on the handle attached to instance 5; the second
call does not reach the detach primitive. -/
theorem detach_idempotent_witness :
    (rb_hps_detach (demoLib 0 0 0 0) .status attached5 ()).tr = [.call .detach, .detach 0]
    ∧ rb_hps_detach (demoLib 0 0 0 0) .status
          (rb_hps_detach (demoLib 0 0 0 0) .status attached5 ()).s
          (rb_hps_detach (demoLib 0 0 0 0) .status attached5 ()).w
        = { out := .ret .status, s := { attached5 with buf := 0 }, w := (),
            tr := [.call .detach] } :=
  ⟨rfl, (detach_idempotent (demoLib 0 0 0 0) .status attached5 ()).2 .status rfl⟩

/-- C9. On an attached handle `detach` invokes the detach primitive exactly once
(the events are the entry of `detach` and one invocation of the primitive). If
the primitive reports a non-zero status the call raises "could not detach" and
the record is as before: `attached?` is still true and `instance_id` returns what
it returned before. If it reports zero the call returns `self`, `buf` is cleared
and nothing else in the record changes: `attached?` is false. -/
theorem detach_attached {W : Type} (lib : Lib W) (self : VALUE) (s : hashpipe_status) (w : W)
    (hatt : s.buf ≠ 0) :
    (rb_hps_detach lib self s w).tr = [.call .detach, .detach (lib.hashpipe_status_detach s w).1]
    ∧ ((lib.hashpipe_status_detach s w).1 ≠ 0 →
        (rb_hps_detach lib self s w).out = .raise (.RuntimeError ("could not detach"))
        ∧ (rb_hps_detach lib self s w).s = s
        ∧ (rb_hps_attached_p (rb_hps_detach lib self s w).s
              (rb_hps_detach lib self s w).w).out = .ret .Qtrue
        ∧ (rb_hps_instance_id (rb_hps_detach lib self s w).s
              (rb_hps_detach lib self s w).w).out = (rb_hps_instance_id s w).out)
    ∧ ((lib.hashpipe_status_detach s w).1 = 0 →
        (rb_hps_detach lib self s w).out = .ret self
        ∧ (rb_hps_detach lib self s w).s = { s with buf := 0 }
        ∧ (rb_hps_attached_p (rb_hps_detach lib self s w).s
              (rb_hps_detach lib self s w).w).out = .ret .Qfalse) := by
  by_cases h0 : (lib.hashpipe_status_detach s w).1 = 0
  · simp [rb_hps_detach, hatt, h0, rb_hps_attached_p]
  · simp [rb_hps_detach, hatt, h0, rb_hps_attached_p, rb_hps_instance_id]

/-- C9, witness: a detach primitive that reports -1 on the handle attached to
instance 5. -/
theorem detach_attached_witness :
    (rb_hps_detach (demoLib 0 (-1) 0 0) .status attached5 ()).tr
        = [.call .detach, .detach (-1)]
    ∧ (rb_hps_detach (demoLib 0 (-1) 0 0) .status attached5 ()).out
        = .raise (.RuntimeError ("could not detach"))
    ∧ (rb_hps_detach (demoLib 0 (-1) 0 0) .status attached5 ()).s = attached5 :=
  have h := detach_attached (demoLib 0 (-1) 0 0) .status attached5 () (by decide)
  ⟨h.1, (h.2.1 (by decide)).1, (h.2.1 (by decide)).2.1⟩

/-! ## lock -/

/-- C10. On an attached handle, with any block or with none: if the lock
primitive reports a non-zero status, `lock` raises "lock error", its events are
its own entry and that one invocation of the lock primitive (no block events, no
unlock), the record is as before and the lock state is what it was, so a handle
that was Unlocked is not left Locked. If the primitive reports zero the lock is
taken: without a block `lock` returns `self` with the lock held; with a block the
block is run next, the call then leaves the way the block left or the way the
unlock that follows it left, and it returns the value of the block whenever the
block and that unlock return. -/
theorem lock_primitive_result {W : Type} (lib : Lib W) (self : VALUE) (blk : Option (Block W))
    (s : hashpipe_status) (w : W) (hatt : s.buf ≠ 0) :
    ((lib.hashpipe_status_lock s w).1 ≠ 0 →
        (rb_hps_lock lib self blk s w).out = .raise (.RuntimeError ("lock error"))
        ∧ (rb_hps_lock lib self blk s w).tr
            = [.call .lock, .lock (lib.hashpipe_status_lock s w).1]
        ∧ (rb_hps_lock lib self blk s w).s = s
        ∧ (rb_hps_lock lib self blk s w).w = (lib.hashpipe_status_lock s w).2
        ∧ ∀ locked, lockedAfter locked (rb_hps_lock lib self blk s w).tr = locked)
    ∧ ((lib.hashpipe_status_lock s w).1 = 0 →
        (rb_hps_lock lib self none s w).out = .ret self
        ∧ (rb_hps_lock lib self none s w).tr = [.call .lock, .lock 0]
        ∧ (rb_hps_lock lib self none s w).s = s
        ∧ (∀ locked, lockedAfter locked (rb_hps_lock lib self none s w).tr = true)
        ∧ ∀ b : Block W,
            (∃ rest, (rb_hps_lock lib self (some b) s w).tr
                = .call .lock :: .lock 0 ::
                    ((b self s (lib.hashpipe_status_lock s w).2).tr ++ rest))
            ∧ ((rb_hps_lock lib self (some b) s w).out
                  = (b self s (lib.hashpipe_status_lock s w).2).out
                ∨ (rb_hps_lock lib self (some b) s w).out
                  = (rb_hps_unlock lib self (b self s (lib.hashpipe_status_lock s w).2).s
                      (b self s (lib.hashpipe_status_lock s w).2).w).out)
            ∧ ∀ v, (b self s (lib.hashpipe_status_lock s w).2).out = .ret v →
                (rb_hps_unlock lib self (b self s (lib.hashpipe_status_lock s w).2).s
                    (b self s (lib.hashpipe_status_lock s w).2).w).out = .ret self →
                (rb_hps_lock lib self (some b) s w).out = .ret v) := by
  constructor
  · intro h0
    rw [rb_hps_lock_fail lib self blk s w hatt h0]
    simp [lockedAfter, h0]
  · intro h0
    rw [rb_hps_lock_none lib self s w hatt h0]
    refine ⟨rfl, rfl, rfl, fun locked => by simp [lockedAfter], ?_⟩
    intro b
    rw [rb_hps_lock_some lib self b s w hatt h0]
    refine ⟨⟨_, congrArg (fun l => Ev.call .lock :: Ev.lock 0 :: l)
      (rb_ensure_tr _ _ _ _ _ _)⟩, ?_, ?_⟩
    · simp only [rb_ensure, rb_yield]
      cases (rb_hps_unlock lib self (b self s (lib.hashpipe_status_lock s w).2).s
        (b self s (lib.hashpipe_status_lock s w).2).w).out <;> simp
    · intro v hv hu
      simp [rb_ensure, rb_yield, hu, hv]

/-- C10, witness: a lock primitive that reports -1 on the handle attached to
instance 5, with a block given; and one that reports zero, with no block. -/
theorem lock_primitive_result_witness :
    (rb_hps_lock (demoLib 0 0 (-1) 0) .status (some nilBlock) attached5 ()).out
        = .raise (.RuntimeError ("lock error"))
    ∧ (rb_hps_lock (demoLib 0 0 (-1) 0) .status (some nilBlock) attached5 ()).tr
        = [.call .lock, .lock (-1)]
    ∧ (rb_hps_lock (demoLib 0 0 0 0) .status none attached5 ()).out = .ret .status :=
  ⟨((lock_primitive_result (demoLib 0 0 (-1) 0) .status (some nilBlock) attached5 ()
      (by decide)).1 (by decide)).1,
   ((lock_primitive_result (demoLib 0 0 (-1) 0) .status (some nilBlock) attached5 ()
      (by decide)).1 (by decide)).2.1,
   ((lock_primitive_result (demoLib 0 0 0 0) .status none attached5 ()
      (by decide)).2 rfl).1⟩

/-! ## Destruction -/

/-- C11, as stated, fails: after `attach(5)` on a new object against the counting
library one buffer is mapped and `attached?` is true; the finalizer then leaves
that buffer mapped and produces no event, in particular no invocation of the
detach primitive, whereas `detach` on the same handle invokes it and unmaps the
buffer. -/
theorem finalizer_leaves_mapping :
    (rb_hps_attach countingLib zeroed .status 5 zeroed 0).w = 1
    ∧ (rb_hps_attached_p (rb_hps_attach countingLib zeroed .status 5 zeroed 0).s
          (rb_hps_attach countingLib zeroed .status 5 zeroed 0).w).out = .ret .Qtrue
    ∧ (rb_hps_finalize (rb_hps_attach countingLib zeroed .status 5 zeroed 0).s
          (rb_hps_attach countingLib zeroed .status 5 zeroed 0).w).tr = []
    ∧ (rb_hps_finalize (rb_hps_attach countingLib zeroed .status 5 zeroed 0).s
          (rb_hps_attach countingLib zeroed .status 5 zeroed 0).w).w = 1
    ∧ (rb_hps_detach countingLib .status (rb_hps_attach countingLib zeroed .status 5 zeroed 0).s
          (rb_hps_attach countingLib zeroed .status 5 zeroed 0).w).tr
        = [.call .detach, .detach 0]
    ∧ (rb_hps_detach countingLib .status (rb_hps_attach countingLib zeroed .status 5 zeroed 0).s
          (rb_hps_attach countingLib zeroed .status 5 zeroed 0).w).w = 0 := by
  refine ⟨rfl, rfl, rfl, rfl, rfl, rfl⟩

/-- C11, amended. The finalizer of a handle, attached or not, gives back the
record only: it produces no event, so it invokes no library primitive, and it
leaves the world, with whatever is mapped in it, as it was. On an attached handle
it is `detach` alone that invokes the detach primitive. -/
theorem finalizer_frees_record_only {W : Type} (lib : Lib W) (self : VALUE)
    (s : hashpipe_status) (w : W) :
    (rb_hps_finalize s w).tr = []
    ∧ (∀ e ∈ (rb_hps_finalize s w).tr, e.isPrim = false)
    ∧ (rb_hps_finalize s w).w = w
    ∧ (s.buf ≠ 0 →
        (rb_hps_detach lib self s w).tr
          = [.call .detach, .detach (lib.hashpipe_status_detach s w).1]) := by
  refine ⟨rfl, by simp [rb_hps_finalize, free], rfl, fun h => ?_⟩
  by_cases h0 : (lib.hashpipe_status_detach s w).1 = 0
  · rw [rb_hps_detach_ok lib self s w h h0, h0]
  · rw [rb_hps_detach_fail lib self s w h h0]

/-- C11 amended, witness: on the handle attached to instance 5 the finalizer is
silent while `detach` reaches the primitive. -/
theorem finalizer_frees_record_only_witness :
    (rb_hps_finalize attached5 ()).tr = []
    ∧ (rb_hps_detach (demoLib 0 0 0 0) .status attached5 ()).tr = [.call .detach, .detach 0] :=
  have h := finalizer_frees_record_only (demoLib 0 0 0 0) .status attached5 ()
  ⟨h.1, h.2.2.2 (by decide)⟩

/-! ## Full lifecycle -/

/-- The library `demoLib 0 0 0 0` reports zero everywhere. -/
theorem demoLib_all_zero : AllZero (demoLib 0 0 0 0) :=
  ⟨fun _ _ _ => rfl, fun _ _ => rfl, fun _ _ => rfl, fun _ _ => rfl⟩

/-- C12, as stated, fails: with a library whose four primitives report zero,
scenario D with the integer 2147483648 stops at its first step, `attach` raising
`RangeError` without reaching the attach primitive, and the `lock` that follows
raises "not attached". -/
theorem lifecycle_out_of_range :
    AllZero (demoLib 0 0 0 0)
    ∧ (scenarioD (demoLib 0 0 0 0) zeroed .status 2147483648 ()).1.out = .raise .RangeError
    ∧ (scenarioD (demoLib 0 0 0 0) zeroed .status 2147483648 ()).1.tr = [.call .attach]
    ∧ (scenarioD (demoLib 0 0 0 0) zeroed .status 2147483648 ()).2.1.out
        = .raise (.RuntimeError ("not attached")) :=
  ⟨demoLib_all_zero, rfl, rfl, rfl⟩

/-- C12, amended. For every integer `vid` that fits a C `int` and every library
whose four primitives report zero, attach leaving a mapped buffer in the record:
in scenario D on a new object each of `attach(vid)`, `lock`, `unlock`, `detach`
returns `self`; the events of the four calls, in order, are the entry of each
method followed by one invocation of its primitive, so the primitives run once
each in the order attach (with `vid`), lock, unlock, detach; and at the end
`attached?` is false. -/
theorem full_lifecycle {W : Type} (lib : Lib W) (stack : hashpipe_status) (self : VALUE)
    (vid : Int) (w : W) (hr : INT_MIN ≤ vid ∧ vid ≤ INT_MAX) (hz : AllZero lib)
    (hm : AttachMaps lib) :
    (scenarioD lib stack self vid w).1.out = .ret self
    ∧ (scenarioD lib stack self vid w).2.1.out = .ret self
    ∧ (scenarioD lib stack self vid w).2.2.1.out = .ret self
    ∧ (scenarioD lib stack self vid w).2.2.2.out = .ret self
    ∧ (scenarioD lib stack self vid w).1.tr ++ (scenarioD lib stack self vid w).2.1.tr
        ++ (scenarioD lib stack self vid w).2.2.1.tr ++ (scenarioD lib stack self vid w).2.2.2.tr
        = [.call .attach, .attach vid 0, .call .lock, .lock 0, .call .unlock, .unlock 0,
            .call .detach, .detach 0]
    ∧ ((scenarioD lib stack self vid w).1.tr ++ (scenarioD lib stack self vid w).2.1.tr
        ++ (scenarioD lib stack self vid w).2.2.1.tr
        ++ (scenarioD lib stack self vid w).2.2.2.tr).filter Ev.isPrim
        = [.attach vid 0, .lock 0, .unlock 0, .detach 0]
    ∧ (rb_hps_attached_p (scenarioD lib stack self vid w).2.2.2.s
          (scenarioD lib stack self vid w).2.2.2.w).out = .ret .Qfalse := by
  obtain ⟨hza, hzd, hzl, hzu⟩ := hz
  have h1 := rb_hps_attach_ok lib stack self vid zeroed w hr rfl (hza _ _ _)
  have hb := hm vid { stack with instance_id := vid } w (hza _ _ _)
  simp only [scenarioD, rb_hps_alloc, h1]
  rw [rb_hps_lock_none lib self _ _ hb (hzl _ _)]
  simp only []
  rw [rb_hps_unlock_ok lib self _ _ hb (hzu _ _)]
  simp only []
  rw [rb_hps_detach_ok lib self _ _ hb (hzd _ _)]
  simp [rb_hps_attached_p, Ev.isPrim]

/-- C12 amended, witness: scenario D with instance id 5. -/
theorem full_lifecycle_witness :
    (scenarioD (demoLib 0 0 0 0) zeroed .status 5 ()).1.out = .ret .status
    ∧ (scenarioD (demoLib 0 0 0 0) zeroed .status 5 ()).2.2.2.out = .ret .status
    ∧ (rb_hps_attached_p (scenarioD (demoLib 0 0 0 0) zeroed .status 5 ()).2.2.2.s
          (scenarioD (demoLib 0 0 0 0) zeroed .status 5 ()).2.2.2.w).out = .ret .Qfalse :=
  have h := full_lifecycle (demoLib 0 0 0 0) zeroed .status 5 () (by decide)
    demoLib_all_zero demoLib_maps
  ⟨h.1, h.2.2.2.1, h.2.2.2.2.2.2⟩

/-! ## Queries -/

/-- Any run of queries leaves record and world as they were and produces no
event. -/
theorem runQueries_pure {W : Type} (qs : List Query) (s : hashpipe_status) (w : W) :
    runQueries qs s w = (s, w, []) := by
  induction qs with
  | nil => rfl
  | cons q qs ih =>
    cases q <;>
      simp [runQueries, Query.run, rb_hps_attached_p, rb_hps_instance_id, ih]

/-- C13. `attached?` and `instance_id` are pure queries: on every record and
world each returns a value (it does not raise or jump), produces no event, so it
invokes no library primitive, and leaves the record and the world as they were.
Hence after any list of such queries every later operation runs on the same
record and world, and so gives the same result, as without them. -/
theorem queries_are_pure {W : Type} (s : hashpipe_status) (w : W) (qs : List Query)
    (op : hashpipe_status → W → Res W) :
    (∃ v, (rb_hps_attached_p s w).out = .ret v)
    ∧ (rb_hps_attached_p s w).tr = []
    ∧ (rb_hps_attached_p s w).s = s
    ∧ (rb_hps_attached_p s w).w = w
    ∧ (∃ v, (rb_hps_instance_id s w).out = .ret v)
    ∧ (rb_hps_instance_id s w).tr = []
    ∧ (rb_hps_instance_id s w).s = s
    ∧ (rb_hps_instance_id s w).w = w
    ∧ (runQueries qs s w).2.2 = []
    ∧ op (runQueries qs s w).1 (runQueries qs s w).2.1 = op s w := by
  rw [runQueries_pure]
  exact ⟨⟨_, rfl⟩, rfl, rfl, rfl, ⟨_, rfl⟩, rfl, rfl, rfl, rfl, rfl⟩

/-! ## What `lock` returns -/

/-- C14. On an attached handle whose lock primitive reports zero. With a block:
the block is run once, on `self` and on the record and world the lock primitive
left (the call depends on the block through that one application only, and its
events are the lock, the events of that application, then those of the one
`unlock` that follows); if the block returns `v` and that `unlock` returns, `lock`
returns `v`. Without a block: `lock` returns `self`, its events are its own entry
and the lock primitive, with no entry of `unlock` and no unlock primitive, and
the lock is held afterwards. -/
theorem lock_return_value {W : Type} (lib : Lib W) (self : VALUE) (b b' : Block W)
    (s : hashpipe_status) (w : W) (hatt : s.buf ≠ 0)
    (hlock : (lib.hashpipe_status_lock s w).1 = 0) :
    (rb_hps_lock lib self (some b) s w).tr
        = .call .lock :: .lock 0 ::
            ((b self s (lib.hashpipe_status_lock s w).2).tr
              ++ (rb_hps_unlock lib self (b self s (lib.hashpipe_status_lock s w).2).s
                    (b self s (lib.hashpipe_status_lock s w).2).w).tr)
    ∧ (b self s (lib.hashpipe_status_lock s w).2 = b' self s (lib.hashpipe_status_lock s w).2 →
        rb_hps_lock lib self (some b) s w = rb_hps_lock lib self (some b') s w)
    ∧ (∀ v x, (b self s (lib.hashpipe_status_lock s w).2).out = .ret v →
        (rb_hps_unlock lib self (b self s (lib.hashpipe_status_lock s w).2).s
            (b self s (lib.hashpipe_status_lock s w).2).w).out = .ret x →
        (rb_hps_lock lib self (some b) s w).out = .ret v)
    ∧ (rb_hps_lock lib self none s w).out = .ret self
    ∧ (rb_hps_lock lib self none s w).tr = [.call .lock, .lock 0]
    ∧ (∀ e ∈ (rb_hps_lock lib self none s w).tr,
        e ≠ .call .unlock ∧ ∀ rc, e ≠ .unlock rc)
    ∧ (∀ locked, lockedAfter locked (rb_hps_lock lib self none s w).tr = true) := by
  rw [rb_hps_lock_none lib self s w hatt hlock, rb_hps_lock_some lib self b s w hatt hlock,
    rb_hps_lock_some lib self b' s w hatt hlock]
  refine ⟨?_, ?_, ?_, rfl, rfl, ?_, ?_⟩
  · exact congrArg (fun l => Ev.call .lock :: Ev.lock 0 :: l) (rb_ensure_tr _ _ _ _ _ _)
  · intro h
    simp only [rb_ensure, rb_yield, h]
  · intro v x hv hx
    simp [rb_ensure, rb_yield, hv, hx]
  · intro e he
    simp at he
    rcases he with rfl | rfl <;> simp
  · intro locked
    simp [lockedAfter]

/-- C14, witness: on the handle attached to instance 5, `lock` with a block that
returns 42 returns 42, `lock` with a block that returns its argument returns the
handle, and `lock` without a block returns the handle. -/
theorem lock_return_value_witness :
    (rb_hps_lock (demoLib 0 0 0 0) .status (some answerBlock) attached5 ()).out
        = .ret (.Integer 42)
    ∧ (rb_hps_lock (demoLib 0 0 0 0) .status (some echoBlock) attached5 ()).out = .ret .status
    ∧ (rb_hps_lock (demoLib 0 0 0 0) .status none attached5 ()).out = .ret .status :=
  ⟨(lock_return_value (demoLib 0 0 0 0) .status answerBlock answerBlock attached5 ()
      (by decide) rfl).2.2.1 (.Integer 42) .status rfl rfl,
   (lock_return_value (demoLib 0 0 0 0) .status echoBlock echoBlock attached5 ()
      (by decide) rfl).2.2.1 .status .status rfl rfl,
   (lock_return_value (demoLib 0 0 0 0) .status answerBlock answerBlock attached5 ()
      (by decide) rfl).2.2.2.1⟩

/-! ## A block that detaches -/

/-- C15. On an attached handle whose lock primitive reports zero, if the block
leaves the handle detached, then, even when the block itself returned normally,
the `unlock` that follows finds the handle detached: the events after those of
the block are the entry of `unlock` alone, without the unlock primitive, the call
raises "not attached", and record and world stay as the block left them. -/
theorem detach_in_block_skips_unlock {W : Type} (lib : Lib W) (self : VALUE) (b : Block W)
    (s : hashpipe_status) (w : W) (hatt : s.buf ≠ 0)
    (hlock : (lib.hashpipe_status_lock s w).1 = 0)
    (hdet : (b self s (lib.hashpipe_status_lock s w).2).s.buf = 0) :
    (rb_hps_lock lib self (some b) s w).out = .raise (.RuntimeError ("not attached"))
    ∧ (rb_hps_lock lib self (some b) s w).tr
        = .call .lock :: .lock 0 ::
            ((b self s (lib.hashpipe_status_lock s w).2).tr ++ [.call .unlock])
    ∧ (rb_hps_lock lib self (some b) s w).s = (b self s (lib.hashpipe_status_lock s w).2).s
    ∧ (rb_hps_lock lib self (some b) s w).w = (b self s (lib.hashpipe_status_lock s w).2).w := by
  rw [rb_hps_lock_some lib self b s w hatt hlock]
  simp only [rb_ensure, rb_yield]
  rw [rb_hps_unlock_detached lib self _ _ hdet]
  simp

/-- C15, witness: on the handle attached to instance 5, a block that calls
`detach`. The detach primitive runs, the unlock primitive does not, the call
raises "not attached" and the lock that was taken is still held. -/
theorem detach_in_block_skips_unlock_witness :
    (detachingBlock (demoLib 0 0 0 0) .status attached5
        ((demoLib 0 0 0 0).hashpipe_status_lock attached5 ()).2).out = .ret .status
    ∧ (rb_hps_lock (demoLib 0 0 0 0) .status (some (detachingBlock (demoLib 0 0 0 0)))
        attached5 ()).out = .raise (.RuntimeError ("not attached"))
    ∧ (rb_hps_lock (demoLib 0 0 0 0) .status (some (detachingBlock (demoLib 0 0 0 0)))
        attached5 ()).tr
        = [.call .lock, .lock 0, .call .detach, .detach 0, .call .unlock]
    ∧ lockedAfter false (rb_hps_lock (demoLib 0 0 0 0) .status
        (some (detachingBlock (demoLib 0 0 0 0))) attached5 ()).tr = true :=
  have h := detach_in_block_skips_unlock (demoLib 0 0 0 0) .status
    (detachingBlock (demoLib 0 0 0 0)) attached5 () (by decide) rfl rfl
  ⟨rfl, h.1, h.2.1.trans rfl, by rw [h.2.1]; rfl⟩

/-! ## `lock` and `unlock` leave the attachment alone -/

/-- C16. `lock` without a block and `unlock` write no field of the record: on
every handle, attached or not, and whatever the lock or unlock primitive
reports, the record after the call is the record before it, so `attached?` and
`instance_id` return what they returned before. -/
theorem lock_unlock_keep_attachment {W : Type} (lib : Lib W) (self : VALUE)
    (s : hashpipe_status) (w : W) :
    (rb_hps_lock lib self none s w).s = s
    ∧ (rb_hps_attached_p (rb_hps_lock lib self none s w).s
          (rb_hps_lock lib self none s w).w).out = (rb_hps_attached_p s w).out
    ∧ (rb_hps_instance_id (rb_hps_lock lib self none s w).s
          (rb_hps_lock lib self none s w).w).out = (rb_hps_instance_id s w).out
    ∧ (rb_hps_unlock lib self s w).s = s
    ∧ (rb_hps_attached_p (rb_hps_unlock lib self s w).s
          (rb_hps_unlock lib self s w).w).out = (rb_hps_attached_p s w).out
    ∧ (rb_hps_instance_id (rb_hps_unlock lib self s w).s
          (rb_hps_unlock lib self s w).w).out = (rb_hps_instance_id s w).out := by
  have hl : (rb_hps_lock lib self none s w).s = s := by
    by_cases hb : s.buf = 0
    · rw [rb_hps_lock_detached lib self none s w hb]
    · by_cases h0 : (lib.hashpipe_status_lock s w).1 = 0
      · rw [rb_hps_lock_none lib self s w hb h0]
      · rw [rb_hps_lock_fail lib self none s w hb h0]
  have hu : (rb_hps_unlock lib self s w).s = s := by
    by_cases hb : s.buf = 0
    · rw [rb_hps_unlock_detached lib self s w hb]
    · by_cases h0 : (lib.hashpipe_status_unlock s w).1 = 0
      · rw [rb_hps_unlock_ok lib self s w hb h0]
      · rw [rb_hps_unlock_fail lib self s w hb h0]
  refine ⟨hl, ?_, ?_, hu, ?_, ?_⟩ <;> simp [rb_hps_attached_p, rb_hps_instance_id, hl, hu]

end Hashpipe
